import Mathlib

/-!
Verification of the extension-bridge examples of this repository: five
native modules (a raw C API variant in two copies, two pybind11 variants
and one nanobind variant) that each expose an integer addition function
to a dynamically typed host runtime. The shallow embedding below models
the host-facing values, the per-call decode / invoke / encode bridge and
the registered module metadata of each variant.
-/

/-- Host-runtime value as seen at the call boundary: an arbitrary-precision
integer, a string, or the host's unit value. The host runtime is dynamically
typed, so an argument has one of these shapes until the bridge decodes it. -/
inductive HostVal where
  | int (n : Int)
  | str (s : String)
  | pyNone
  deriving DecidableEq

/-- Error categories of the bridge, following the spec's error taxonomy:
a bad call signature (arity mismatch or type mismatch, detected before the
native function runs) and a result encoding failure (native result not
representable as a host value, detected after the native function runs). -/
inductive PyErr where
  | badCallSignature
  | resultEncodingFailure
  deriving DecidableEq

/-- Smallest value of the C type long (64 bits on the supported targets). -/
def longMin : Int := -9223372036854775808

/-- Largest value of the C type long. -/
def longMax : Int := 9223372036854775807

/-- Smallest value of the 32-bit types int and int32_t. -/
def int32Min : Int := -2147483648

/-- Largest value of the 32-bit types int and int32_t. -/
def int32Max : Int := 2147483647

/-- Reduction of a mathematical integer to the two's-complement range of a
64-bit C long. The C sources compute sums directly in the native type, so an
overflowing sum is embedded as wrapping modulo 2 to the 64, the behaviour of
two's-complement machines. -/
def wrapLong (n : Int) : Int :=
  (n + 9223372036854775808) % 18446744073709551616 - 9223372036854775808

/-- Reduction of a mathematical integer to the two's-complement range of the
32-bit types int and int32_t, wrapping modulo 2 to the 32. -/
def wrap32 (n : Int) : Int :=
  (n + 2147483648) % 4294967296 - 2147483648

/-- Modelled from the spec: decoding of one host argument into a fixed-width
signed native integer whose representable range is lo..hi. The decoders of
the bridge (the l unit of PyArg_ParseTuple for C long, and the integer type
casters of pybind11 and nanobind for int and int32_t) are library code that
is not under src; per the spec's decode contract, a non-integer host value
is a type mismatch, and an integer outside the representable range of the
target native type is a type mismatch as well, never silently wrapped; both
are the bad-call-signature category. -/
def convertRange (lo hi : Int) (v : HostVal) : Except PyErr Int :=
  match v with
  | .int n => if lo ≤ n ∧ n ≤ hi then .ok n else .error .badCallSignature
  | _ => .error .badCallSignature

/-- Decode of one host argument into a C long, as requested by the format
string "ll" of add_module_add in src/examples/minimal/src/ext/add_module.c
and src/examples/minimal/src/add_module.c. -/
def convertLong : HostVal → Except PyErr Int := convertRange longMin longMax

/-- Decode of one host argument into a 32-bit native integer, as declared by
the add bindings of src/examples/pybind11-project/src/ext/add_module.cpp
(int32_t), src/examples/nanobind-project/src/add_module.cpp (int32_t) and
src/src/add_module.cpp (int). -/
def convertInt32 : HostVal → Except PyErr Int := convertRange int32Min int32Max

/-- Modelled from the spec: the per-call entry point of a binding with two
declared integer parameters. The host presents an argument list of unknown
length; the bridge checks the arity, decodes the two positional arguments
left to right through conv, short-circuiting on the first failure, and only
when both decodes succeed invokes the native function f on the decoded
values, in order, then encodes the native result as a host integer (host
integers are unbounded, so this encoding is total). The second component
counts how often the native function was invoked during the call. -/
def invoke2 (conv : HostVal → Except PyErr Int) (f : Int → Int → Int)
    (args : List HostVal) : Except PyErr HostVal × Nat :=
  match args with
  | [v, w] =>
    match conv v with
    | .error e => (.error e, 0)
    | .ok a =>
      match conv w with
      | .error e => (.error e, 0)
      | .ok b => (.ok (.int (f a b)), 1)
  | _ => (.error .badCallSignature, 0)

/-- Exported name, native implementation reference and docstring of one
function binding, as registered with the host runtime. -/
structure FunctionBinding where
  fname : String
  fdoc : String
  deriving DecidableEq

/-- Registered identity and metadata of a module: name, docstring, optional
version attribute and the exported function bindings. -/
structure ModuleDescriptor where
  mname : String
  mdoc : String
  version : Option String
  methods : List FunctionBinding
  deriving DecidableEq

namespace CExt

/-- Embedding of add from src/examples/minimal/src/ext/add_module.c: C long
addition, with signed overflow embedded as two's-complement wrapping. -/
def add (a b : Int) : Int := wrapLong (a + b)

/-- Embedding of add_module_add from src/examples/minimal/src/ext/add_module.c:
parse the argument tuple with format "ll" (returning NULL on failure, before
add is called), call add on the two decoded longs, and encode the result with
PyLong_FromLong. -/
def add_module_add (args : List HostVal) : Except PyErr HostVal × Nat :=
  invoke2 convertLong add args

/-- Docstring of the module, from the PyDoc_STRVAR in
src/examples/minimal/src/ext/add_module.c. -/
def docstring : String :=
  "Simple module that adds integers. Based loosely on https://docs.python.org/3/extending/extending.html"

/-- Embedding of the PyModuleDef add_module and the method table
AddModuleMethods of src/examples/minimal/src/ext/add_module.c: module name
_add_module, the docstring above, no version attribute, and one exported
method add with docstring "Add two integers.". -/
def add_module : ModuleDescriptor :=
  ⟨"_add_module", docstring, none, [⟨"add", "Add two integers."⟩]⟩

/-- Embedding of one host-level call to the module's add method: the wrapper
receives the module object self and the argument tuple; it casts self to
void and never reads or writes any module or global state, so the module
descriptor passes through a call unchanged. -/
def add_module_call (m : ModuleDescriptor) (args : List HostVal) :
    (Except PyErr HostVal × Nat) × ModuleDescriptor :=
  (add_module_add args, m)

end CExt

namespace CMin

/-- Embedding of add_module_add from src/examples/minimal/src/add_module.c:
identical to the ext variant except that the sum a + b is computed inline in
the wrapper (C long arithmetic) instead of in a separate add function. -/
def add_module_add (args : List HostVal) : Except PyErr HostVal × Nat :=
  invoke2 convertLong (fun a b => wrapLong (a + b)) args

/-- Docstring of the module, from the PyDoc_STRVAR in
src/examples/minimal/src/add_module.c (same text as the ext variant). -/
def docstring : String :=
  "Simple module that adds integers. Based loosely on https://docs.python.org/3/extending/extending.html"

/-- Embedding of the PyModuleDef add_module of
src/examples/minimal/src/add_module.c. -/
def add_module : ModuleDescriptor :=
  ⟨"_add_module", docstring, none, [⟨"add", "Add two integers."⟩]⟩

end CMin

namespace Pybind11Proj

/-- Embedding of add from src/examples/pybind11-project/src/ext/add_module.cpp:
int32_t addition, overflow embedded as two's-complement wrapping. -/
def add (a b : Int) : Int := wrap32 (a + b)

/-- Modelled from the spec: the dispatcher pybind11 generates for
m.def("add", add, ...) — library glue not under src — following the spec's
contract: arity check, left-to-right decode into int32_t, native call,
result encoding. -/
def add_invoke (args : List HostVal) : Except PyErr HostVal × Nat :=
  invoke2 convertInt32 add args

/-- Embedding of PYBIND11_MODULE(MODULE_NAME, m) of
src/examples/pybind11-project/src/ext/add_module.cpp. MODULE_NAME and
VERSION_INFO are strings substituted at build time, taken as parameters. -/
def add_module (moduleName versionInfo : String) : ModuleDescriptor :=
  ⟨moduleName, "Module for adding integers", some versionInfo,
    [⟨"add", "Adds two integers"⟩]⟩

end Pybind11Proj

namespace NanobindProj

/-- Embedding of add from src/examples/nanobind-project/src/add_module.cpp:
int32_t addition, overflow embedded as two's-complement wrapping. -/
def add (a b : Int) : Int := wrap32 (a + b)

/-- Modelled from the spec: the dispatcher nanobind generates for
m.def("add", add, ...) — library glue not under src — following the spec's
contract: arity check, left-to-right decode into int32_t, native call,
result encoding. -/
def add_invoke (args : List HostVal) : Except PyErr HostVal × Nat :=
  invoke2 convertInt32 add args

/-- Embedding of NB_MODULE(MODULE_NAME, m) of
src/examples/nanobind-project/src/add_module.cpp. -/
def add_module (moduleName versionInfo : String) : ModuleDescriptor :=
  ⟨moduleName, "Module for adding integers", some versionInfo,
    [⟨"add", "Adds two integers"⟩]⟩

end NanobindProj

namespace SrcMod

/-- Embedding of the lambda bound as add in src/src/add_module.cpp:
addition of two C int values (32 bits on the supported targets), overflow
embedded as two's-complement wrapping. -/
def add (a b : Int) : Int := wrap32 (a + b)

/-- Modelled from the spec: the dispatcher pybind11 generates for the add
lambda of src/src/add_module.cpp — library glue not under src — following
the spec's contract: arity check, left-to-right decode into int, native
call, result encoding. -/
def add_invoke (args : List HostVal) : Except PyErr HostVal × Nat :=
  invoke2 convertInt32 add args

/-- Embedding of PYBIND11_MODULE(MODULE_NAME, m) of src/src/add_module.cpp. -/
def add_module (moduleName versionInfo : String) : ModuleDescriptor :=
  ⟨moduleName, "Module for adding integers", some versionInfo,
    [⟨"add", "Adds two integers"⟩]⟩

/-- Embedding of one host-level call to the add binding of
src/src/add_module.cpp: the generated dispatcher reads only the immutable
binding record and its own call frame, so the module descriptor passes
through a call unchanged. -/
def add_module_call (m : ModuleDescriptor) (args : List HostVal) :
    (Except PyErr HostVal × Nat) × ModuleDescriptor :=
  (add_invoke args, m)

end SrcMod

/-- Sequential execution of a list of host-level calls against a module:
the host invokes the bridge one call at a time, threading the module state
through; each call yields its own outcome and the module state for the next
call. -/
def runCalls
    (step : ModuleDescriptor → List HostVal → (Except PyErr HostVal × Nat) × ModuleDescriptor)
    (m : ModuleDescriptor) :
    List (List HostVal) → List (Except PyErr HostVal × Nat) × ModuleDescriptor
  | [] => ([], m)
  | args :: rest =>
    let r := step m args
    let rs := runCalls step r.2 rest
    (r.1 :: rs.1, rs.2)

/-! Helper lemmas about the embedding. -/

/-- Wrapping is the identity on values inside the long range. -/
theorem wrapLong_eq_self (n : Int) (h1 : longMin ≤ n) (h2 : n ≤ longMax) :
    wrapLong n = n := by
  simp only [longMin] at h1
  simp only [longMax] at h2
  unfold wrapLong
  have h : (n + 9223372036854775808) % 18446744073709551616
      = n + 9223372036854775808 :=
    Int.emod_eq_of_lt (by omega) (by omega)
  omega

/-- Wrapping is the identity on values inside the 32-bit range. -/
theorem wrap32_eq_self (n : Int) (h1 : int32Min ≤ n) (h2 : n ≤ int32Max) :
    wrap32 n = n := by
  simp only [int32Min] at h1
  simp only [int32Max] at h2
  unfold wrap32
  have h : (n + 2147483648) % 4294967296 = n + 2147483648 :=
    Int.emod_eq_of_lt (by omega) (by omega)
  omega

/-- Decoding an in-range host integer yields that integer. -/
theorem convertRange_int_ok (lo hi n : Int) (h1 : lo ≤ n) (h2 : n ≤ hi) :
    convertRange lo hi (.int n) = .ok n := by
  simp [convertRange, h1, h2]

/-- Decoding a host integer outside the target range is a type mismatch. -/
theorem convertRange_int_err (lo hi n : Int) (h : n < lo ∨ hi < n) :
    convertRange lo hi (.int n) = .error .badCallSignature := by
  have hc : ¬ (lo ≤ n ∧ n ≤ hi) := by omega
  simp [convertRange, hc]

/-- Every decode failure is in the bad-call-signature category. -/
theorem convertRange_error_eq (lo hi : Int) (v : HostVal) (e : PyErr)
    (h : convertRange lo hi v = .error e) : e = .badCallSignature := by
  cases v with
  | int n =>
    by_cases hb : lo ≤ n ∧ n ≤ hi
    · simp [convertRange, hb] at h
    · simp [convertRange, hb] at h
      exact h.symm
  | str s =>
    simp [convertRange] at h
    exact h.symm
  | pyNone =>
    simp [convertRange] at h
    exact h.symm

/-- An argument list of the wrong length is rejected with a
bad-call-signature error before the native function can run. -/
theorem invoke2_arity (conv : HostVal → Except PyErr Int) (f : Int → Int → Int)
    (args : List HostVal) (h : args.length ≠ 2) :
    invoke2 conv f args = (.error .badCallSignature, 0) := by
  match args with
  | [] => rfl
  | [_] => rfl
  | [_, _] => simp at h
  | _ :: _ :: _ :: _ => rfl

/-- A decode failure on the first argument ends the call with that error, no
matter what the second argument is, and the native function is not run. -/
theorem invoke2_err_left (conv : HostVal → Except PyErr Int)
    (f : Int → Int → Int) (v w : HostVal) (e : PyErr)
    (h : conv v = .error e) :
    invoke2 conv f [v, w] = (.error e, 0) := by
  simp [invoke2, h]

/-- When the first argument decodes, a decode failure on the second ends the
call with that error, and the native function is not run. -/
theorem invoke2_err_right (conv : HostVal → Except PyErr Int)
    (f : Int → Int → Int) (v w : HostVal) (a : Int) (e : PyErr)
    (hv : conv v = .ok a) (hw : conv w = .error e) :
    invoke2 conv f [v, w] = (.error e, 0) := by
  simp [invoke2, hv, hw]

/-- When both arguments decode, the native function runs exactly once, on the
decoded values in order, and its result is encoded as the outcome. -/
theorem invoke2_ok (conv : HostVal → Except PyErr Int) (f : Int → Int → Int)
    (v w : HostVal) (a b : Int) (hv : conv v = .ok a) (hw : conv w = .ok b) :
    invoke2 conv f [v, w] = (.ok (.int (f a b)), 1) := by
  simp [invoke2, hv, hw]

/-- When the decoder only ever fails with bad-call-signature errors, the
whole call can never report a result-encoding failure. -/
theorem invoke2_no_encode_failure (conv : HostVal → Except PyErr Int)
    (f : Int → Int → Int) (args : List HostVal)
    (hc : ∀ v e, conv v = .error e → e = .badCallSignature) :
    (invoke2 conv f args).1 ≠ .error .resultEncodingFailure := by
  match args with
  | [] => simp [invoke2]
  | [_] => simp [invoke2]
  | [v, w] =>
    cases hv : conv v with
    | error e =>
      have := hc v e hv
      subst this
      simp [invoke2, hv]
    | ok a =>
      cases hw : conv w with
      | error e =>
        have := hc w e hw
        subst this
        simp [invoke2, hv, hw]
      | ok b => simp [invoke2, hv, hw]
  | _ :: _ :: _ :: _ => simp [invoke2]

/-- Decoders built from convertRange only fail with bad-call-signature. -/
theorem convertLong_error_eq (v : HostVal) (e : PyErr)
    (h : convertLong v = .error e) : e = .badCallSignature :=
  convertRange_error_eq longMin longMax v e h

/-- Decoders built from convertRange only fail with bad-call-signature. -/
theorem convertInt32_error_eq (v : HostVal) (e : PyErr)
    (h : convertInt32 v = .error e) : e = .badCallSignature :=
  convertRange_error_eq int32Min int32Max v e h

/-- Running a sequence of calls whose step neither reads nor writes module
state yields exactly the per-call outcomes of the pure per-call function and
returns the module state unchanged. -/
theorem runCalls_pure (f : List HostVal → Except PyErr HostVal × Nat)
    (m : ModuleDescriptor) (calls : List (List HostVal)) :
    runCalls (fun st a => (f a, st)) m calls = (calls.map f, m) := by
  induction calls generalizing m with
  | nil => rfl
  | cons c cs ih => simp [runCalls, ih]

/-! Claim theorems. -/

/-- C1: for every pair of native-representable integers (a, b) whose sum is
representable in the declared result type, invoking the exported callable
add with [a, b] succeeds and returns exactly a + b, with no rounding or
truncation, in every binding variant: the raw C API variants (C long) and
the pybind11, nanobind and pybind11-int variants (32-bit int). -/
theorem c1_add_exact (a b : Int) :
    (longMin ≤ a → a ≤ longMax → longMin ≤ b → b ≤ longMax →
      longMin ≤ a + b → a + b ≤ longMax →
      CExt.add_module_add [.int a, .int b] = (.ok (.int (a + b)), 1) ∧
      CMin.add_module_add [.int a, .int b] = (.ok (.int (a + b)), 1)) ∧
    (int32Min ≤ a → a ≤ int32Max → int32Min ≤ b → b ≤ int32Max →
      int32Min ≤ a + b → a + b ≤ int32Max →
      Pybind11Proj.add_invoke [.int a, .int b] = (.ok (.int (a + b)), 1) ∧
      NanobindProj.add_invoke [.int a, .int b] = (.ok (.int (a + b)), 1) ∧
      SrcMod.add_invoke [.int a, .int b] = (.ok (.int (a + b)), 1)) := by
  constructor
  · intro ha1 ha2 hb1 hb2 hs1 hs2
    have hva : convertLong (.int a) = .ok a := convertRange_int_ok _ _ _ ha1 ha2
    have hvb : convertLong (.int b) = .ok b := convertRange_int_ok _ _ _ hb1 hb2
    have hw : wrapLong (a + b) = a + b := wrapLong_eq_self _ hs1 hs2
    constructor
    · show invoke2 convertLong CExt.add [.int a, .int b] = _
      rw [invoke2_ok convertLong CExt.add (.int a) (.int b) a b hva hvb]
      simp only [CExt.add, hw]
    · show invoke2 convertLong (fun x y => wrapLong (x + y)) [.int a, .int b] = _
      rw [invoke2_ok convertLong (fun x y => wrapLong (x + y)) (.int a) (.int b) a b hva hvb]
      simp only [hw]
  · intro ha1 ha2 hb1 hb2 hs1 hs2
    have hva : convertInt32 (.int a) = .ok a := convertRange_int_ok _ _ _ ha1 ha2
    have hvb : convertInt32 (.int b) = .ok b := convertRange_int_ok _ _ _ hb1 hb2
    have hw : wrap32 (a + b) = a + b := wrap32_eq_self _ hs1 hs2
    refine ⟨?_, ?_, ?_⟩
    · show invoke2 convertInt32 Pybind11Proj.add [.int a, .int b] = _
      rw [invoke2_ok convertInt32 Pybind11Proj.add (.int a) (.int b) a b hva hvb]
      simp only [Pybind11Proj.add, hw]
    · show invoke2 convertInt32 NanobindProj.add [.int a, .int b] = _
      rw [invoke2_ok convertInt32 NanobindProj.add (.int a) (.int b) a b hva hvb]
      simp only [NanobindProj.add, hw]
    · show invoke2 convertInt32 SrcMod.add [.int a, .int b] = _
      rw [invoke2_ok convertInt32 SrcMod.add (.int a) (.int b) a b hva hvb]
      simp only [SrcMod.add, hw]

/-- C1 witness: the theorem applied at the concrete input (2, 3). -/
theorem c1_add_exact_witness :
    CExt.add_module_add [.int 2, .int 3] = (.ok (.int (2 + 3)), 1) ∧
    Pybind11Proj.add_invoke [.int 2, .int 3] = (.ok (.int (2 + 3)), 1) :=
  ⟨((c1_add_exact 2 3).1 (by decide) (by decide) (by decide) (by decide)
      (by decide) (by decide)).1,
   ((c1_add_exact 2 3).2 (by decide) (by decide) (by decide) (by decide)
      (by decide) (by decide)).1⟩

/-- C2: for every argument list whose length is not exactly two, invoking
the exported callable add yields a bad-call-signature error, and the native
addition function is never invoked (invocation count 0), in every variant. -/
theorem c2_arity_error (args : List HostVal) (h : args.length ≠ 2) :
    CExt.add_module_add args = (.error .badCallSignature, 0) ∧
    CMin.add_module_add args = (.error .badCallSignature, 0) ∧
    Pybind11Proj.add_invoke args = (.error .badCallSignature, 0) ∧
    NanobindProj.add_invoke args = (.error .badCallSignature, 0) ∧
    SrcMod.add_invoke args = (.error .badCallSignature, 0) :=
  ⟨invoke2_arity _ _ _ h, invoke2_arity _ _ _ h, invoke2_arity _ _ _ h,
    invoke2_arity _ _ _ h, invoke2_arity _ _ _ h⟩

/-- C2 witness: the theorem applied at the one-element list [2]. -/
theorem c2_arity_error_witness :
    CExt.add_module_add [.int 2] = (.error .badCallSignature, 0) ∧
    CMin.add_module_add [.int 2] = (.error .badCallSignature, 0) ∧
    Pybind11Proj.add_invoke [.int 2] = (.error .badCallSignature, 0) ∧
    NanobindProj.add_invoke [.int 2] = (.error .badCallSignature, 0) ∧
    SrcMod.add_invoke [.int 2] = (.error .badCallSignature, 0) :=
  c2_arity_error [.int 2] (by decide)

/-- C4 counterexample: at the concrete input [long max, 1] the raw C API
variant decodes both arguments successfully, the native addition wraps, and
the call succeeds with the wrapped value instead of reporting a
result-encoding failure; likewise the pybind11 variant at [int32 max, 1].
This falsifies the claim that an unrepresentable sum of decoded arguments is
reported as a result-encoding failure rather than silently wrapped. -/
theorem c4_counterexample :
    CExt.add_module_add [.int 9223372036854775807, .int 1] =
      (.ok (.int (-9223372036854775808)), 1) ∧
    Pybind11Proj.add_invoke [.int 2147483647, .int 1] =
      (.ok (.int (-2147483648)), 1) :=
  ⟨rfl, rfl⟩

/-- C4 as amended: for every pair of successfully decoded native arguments,
the variants compute the sum in fixed-width two's-complement arithmetic, so
an unrepresentable sum wraps; the wrapped native value is then encoded
successfully (host integers are unbounded), and no result-encoding failure
is ever reported by any call. -/
theorem c4_amended_wraps (a b : Int) :
    (longMin ≤ a → a ≤ longMax → longMin ≤ b → b ≤ longMax →
      CExt.add_module_add [.int a, .int b] = (.ok (.int (wrapLong (a + b))), 1)) ∧
    (int32Min ≤ a → a ≤ int32Max → int32Min ≤ b → b ≤ int32Max →
      Pybind11Proj.add_invoke [.int a, .int b] = (.ok (.int (wrap32 (a + b))), 1)) ∧
    (∀ args : List HostVal,
      (CExt.add_module_add args).1 ≠ .error .resultEncodingFailure ∧
      (Pybind11Proj.add_invoke args).1 ≠ .error .resultEncodingFailure) := by
  refine ⟨?_, ?_, ?_⟩
  · intro ha1 ha2 hb1 hb2
    have hva : convertLong (.int a) = .ok a := convertRange_int_ok _ _ _ ha1 ha2
    have hvb : convertLong (.int b) = .ok b := convertRange_int_ok _ _ _ hb1 hb2
    exact invoke2_ok _ _ _ _ _ _ hva hvb
  · intro ha1 ha2 hb1 hb2
    have hva : convertInt32 (.int a) = .ok a := convertRange_int_ok _ _ _ ha1 ha2
    have hvb : convertInt32 (.int b) = .ok b := convertRange_int_ok _ _ _ hb1 hb2
    exact invoke2_ok _ _ _ _ _ _ hva hvb
  · intro args
    exact ⟨invoke2_no_encode_failure _ _ _ convertLong_error_eq,
      invoke2_no_encode_failure _ _ _ convertInt32_error_eq⟩

/-- C4 witness: the amended theorem applied at the overflowing concrete
inputs (long max, 1) and (int32 max, 1). -/
theorem c4_amended_wraps_witness :
    CExt.add_module_add [.int 9223372036854775807, .int 1] =
      (.ok (.int (wrapLong (9223372036854775807 + 1))), 1) ∧
    Pybind11Proj.add_invoke [.int 2147483647, .int 1] =
      (.ok (.int (wrap32 (2147483647 + 1))), 1) :=
  ⟨(c4_amended_wraps 9223372036854775807 1).1 (by decide) (by decide)
      (by decide) (by decide),
   (c4_amended_wraps 2147483647 1).2.1 (by decide) (by decide)
      (by decide) (by decide)⟩

/-- C10: in the raw C API variants the result-encoding step has no failure
path: for every pair of successfully decoded long arguments the wrapper
computes the sum in fixed-width signed long arithmetic (embedded as
wrapping modulo 2 to the 64), the encoding of that long result always
succeeds, and no call of either variant ever reports a result-encoding
failure. -/
theorem c10_encode_total (a b : Int) :
    (longMin ≤ a → a ≤ longMax → longMin ≤ b → b ≤ longMax →
      CExt.add_module_add [.int a, .int b] = (.ok (.int (wrapLong (a + b))), 1) ∧
      CMin.add_module_add [.int a, .int b] = (.ok (.int (wrapLong (a + b))), 1)) ∧
    (∀ args : List HostVal,
      (CExt.add_module_add args).1 ≠ .error .resultEncodingFailure ∧
      (CMin.add_module_add args).1 ≠ .error .resultEncodingFailure) := by
  constructor
  · intro ha1 ha2 hb1 hb2
    have hva : convertLong (.int a) = .ok a := convertRange_int_ok _ _ _ ha1 ha2
    have hvb : convertLong (.int b) = .ok b := convertRange_int_ok _ _ _ hb1 hb2
    exact ⟨invoke2_ok _ _ _ _ _ _ hva hvb, invoke2_ok _ _ _ _ _ _ hva hvb⟩
  · intro args
    exact ⟨invoke2_no_encode_failure _ _ _ convertLong_error_eq,
      invoke2_no_encode_failure _ _ _ convertLong_error_eq⟩

/-- C10 witness: the theorem applied at the concrete input (long max, 1),
where the native sum wraps and is still encoded successfully. -/
theorem c10_encode_total_witness :
    CExt.add_module_add [.int 9223372036854775807, .int 1] =
      (.ok (.int (wrapLong (9223372036854775807 + 1))), 1) ∧
    CMin.add_module_add [.int 9223372036854775807, .int 1] =
      (.ok (.int (wrapLong (9223372036854775807 + 1))), 1) :=
  (c10_encode_total 9223372036854775807 1).1 (by decide) (by decide)
    (by decide) (by decide)

/-- When the decoder can only fail with bad-call-signature errors and one of
the two arguments does not decode, the call fails with bad-call-signature
and the native function does not run. -/
theorem invoke2_not_convertible (conv : HostVal → Except PyErr Int)
    (f : Int → Int → Int) (v w : HostVal)
    (hc : ∀ u e, conv u = .error e → e = .badCallSignature)
    (h : (∀ n : Int, conv v ≠ .ok n) ∨ (∀ n : Int, conv w ≠ .ok n)) :
    invoke2 conv f [v, w] = (.error .badCallSignature, 0) := by
  cases hv : conv v with
  | error e =>
    have he := hc v e hv
    subst he
    exact invoke2_err_left _ _ _ _ _ hv
  | ok a =>
    rcases h with h | h
    · exact absurd hv (h a)
    · cases hw : conv w with
      | error e =>
        have he := hc w e hw
        subst he
        exact invoke2_err_right _ _ _ _ _ _ hv hw
      | ok b => exact absurd hw (h b)

/-- The 32-bit range is contained in the long range. -/
theorem int32_le_long (n : Int) (h1 : int32Min ≤ n) (h2 : n ≤ int32Max) :
    longMin ≤ n ∧ n ≤ longMax := by
  simp only [int32Min, int32Max] at h1 h2
  simp only [longMin, longMax]
  omega

/-- A long-decoding bridge whose native function is wrapping long addition
returns the exact sum whenever the arguments and the sum are in range. -/
theorem long_add_exact (f : Int → Int → Int)
    (hf : ∀ x y, f x y = wrapLong (x + y)) (a b : Int)
    (ha1 : longMin ≤ a) (ha2 : a ≤ longMax) (hb1 : longMin ≤ b)
    (hb2 : b ≤ longMax) (hs1 : longMin ≤ a + b) (hs2 : a + b ≤ longMax) :
    invoke2 convertLong f [.int a, .int b] = (.ok (.int (a + b)), 1) := by
  have hva := convertRange_int_ok longMin longMax a ha1 ha2
  have hvb := convertRange_int_ok longMin longMax b hb1 hb2
  rw [invoke2_ok convertLong f (.int a) (.int b) a b hva hvb, hf,
    wrapLong_eq_self _ hs1 hs2]

/-- A 32-bit-decoding bridge whose native function is wrapping 32-bit
addition returns the exact sum whenever the arguments and the sum are in
range. -/
theorem int32_add_exact (f : Int → Int → Int)
    (hf : ∀ x y, f x y = wrap32 (x + y)) (a b : Int)
    (ha1 : int32Min ≤ a) (ha2 : a ≤ int32Max) (hb1 : int32Min ≤ b)
    (hb2 : b ≤ int32Max) (hs1 : int32Min ≤ a + b) (hs2 : a + b ≤ int32Max) :
    invoke2 convertInt32 f [.int a, .int b] = (.ok (.int (a + b)), 1) := by
  have hva := convertRange_int_ok int32Min int32Max a ha1 ha2
  have hvb := convertRange_int_ok int32Min int32Max b hb1 hb2
  rw [invoke2_ok convertInt32 f (.int a) (.int b) a b hva hvb, hf,
    wrap32_eq_self _ hs1 hs2]

/-- C3: for every two-element argument list in which at least one element
does not decode to the declared native signed-integer type, invoking add
yields a bad-call-signature error and the native addition is never invoked
(invocation count 0); arity mismatches are reported with the same single
error category, also before native invocation. Shown for the raw C API
variant (C long) and the nanobind variant (int32_t). -/
theorem c3_type_mismatch (v w : HostVal) :
    ((∀ n : Int, convertLong v ≠ .ok n) ∨ (∀ n : Int, convertLong w ≠ .ok n) →
      CExt.add_module_add [v, w] = (.error .badCallSignature, 0)) ∧
    ((∀ n : Int, convertInt32 v ≠ .ok n) ∨ (∀ n : Int, convertInt32 w ≠ .ok n) →
      NanobindProj.add_invoke [v, w] = (.error .badCallSignature, 0)) ∧
    (∀ args : List HostVal, args.length ≠ 2 →
      CExt.add_module_add args = (.error .badCallSignature, 0) ∧
      NanobindProj.add_invoke args = (.error .badCallSignature, 0)) := by
  refine ⟨?_, ?_, ?_⟩
  · exact invoke2_not_convertible _ _ _ _ convertLong_error_eq
  · exact invoke2_not_convertible _ _ _ _ convertInt32_error_eq
  · intro args h
    exact ⟨invoke2_arity _ _ _ h, invoke2_arity _ _ _ h⟩

/-- C3 witness: the theorem applied at the concrete input ["x", 3], whose
first element is not integer-convertible. -/
theorem c3_type_mismatch_witness :
    CExt.add_module_add [.str "x", .int 3] = (.error .badCallSignature, 0) ∧
    NanobindProj.add_invoke [.str "x", .int 3] = (.error .badCallSignature, 0) :=
  ⟨(c3_type_mismatch (.str "x") (.int 3)).1
      (Or.inl fun n h => by simp [convertLong, convertRange] at h),
   (c3_type_mismatch (.str "x") (.int 3)).2.1
      (Or.inl fun n h => by simp [convertInt32, convertRange] at h)⟩

/-- C5: for every argument value outside the representable range of the
declared target native integer type, the decode step reports a type
mismatch in the bad-call-signature category and the call fails without
invoking the native function, so the value is never silently wrapped into
the native type. Shown for the raw C API variant (C long) and the nanobind
variant (int32_t). -/
theorem c5_out_of_range (n : Int) (w : HostVal) :
    ((n < longMin ∨ longMax < n) →
      convertLong (.int n) = .error .badCallSignature ∧
      CExt.add_module_add [.int n, w] = (.error .badCallSignature, 0) ∧
      CMin.add_module_add [.int n, w] = (.error .badCallSignature, 0)) ∧
    ((n < int32Min ∨ int32Max < n) →
      convertInt32 (.int n) = .error .badCallSignature ∧
      NanobindProj.add_invoke [.int n, w] = (.error .badCallSignature, 0)) := by
  constructor
  · intro h
    have hc : convertLong (.int n) = .error .badCallSignature :=
      convertRange_int_err _ _ _ h
    exact ⟨hc, invoke2_err_left _ _ _ _ _ hc, invoke2_err_left _ _ _ _ _ hc⟩
  · intro h
    have hc : convertInt32 (.int n) = .error .badCallSignature :=
      convertRange_int_err _ _ _ h
    exact ⟨hc, invoke2_err_left _ _ _ _ _ hc⟩

/-- C5 witness: the theorem applied at 2 to the 63 (just above the long
range) and at 2 to the 31 (just above the 32-bit range). -/
theorem c5_out_of_range_witness :
    convertLong (.int 9223372036854775808) = .error .badCallSignature ∧
    CExt.add_module_add [.int 9223372036854775808, .int 0] =
      (.error .badCallSignature, 0) ∧
    convertInt32 (.int 2147483648) = .error .badCallSignature ∧
    NanobindProj.add_invoke [.int 2147483648, .int 0] =
      (.error .badCallSignature, 0) := by
  have h1 := (c5_out_of_range 9223372036854775808 (.int 0)).1 (by decide)
  have h2 := (c5_out_of_range 2147483648 (.int 0)).2 (by decide)
  exact ⟨h1.1, h1.2.1, h2.1, h2.2⟩

/-- C7: the decode step handles the positional arguments left to right and
short-circuits: a decode failure on the first argument ends the call with
that error whatever the second argument is, a decode failure on the second
argument ends the call with that error, and only when both arguments decode
is the native function invoked, exactly once, on the decoded values in
order. Shown for the raw C API variant cited by the claim. -/
theorem c7_decode_order (v w : HostVal) :
    (∀ e : PyErr, convertLong v = .error e →
      CExt.add_module_add [v, w] = (.error e, 0)) ∧
    (∀ (a : Int) (e : PyErr), convertLong v = .ok a → convertLong w = .error e →
      CExt.add_module_add [v, w] = (.error e, 0)) ∧
    (∀ a b : Int, convertLong v = .ok a → convertLong w = .ok b →
      CExt.add_module_add [v, w] = (.ok (.int (CExt.add a b)), 1)) :=
  ⟨fun _ h => invoke2_err_left _ _ _ _ _ h,
   fun _ _ hv hw => invoke2_err_right _ _ _ _ _ _ hv hw,
   fun _ _ hv hw => invoke2_ok _ _ _ _ _ _ hv hw⟩

/-- C7 witness: the theorem applied at the concrete inputs ["x", 3]
(failure on the first position), [2, "y"] (failure on the second position)
and [2, 3] (both decode, native invocation count 1). -/
theorem c7_decode_order_witness :
    CExt.add_module_add [.str "x", .int 3] = (.error .badCallSignature, 0) ∧
    CExt.add_module_add [.int 2, .str "y"] = (.error .badCallSignature, 0) ∧
    CExt.add_module_add [.int 2, .int 3] = (.ok (.int (CExt.add 2 3)), 1) :=
  ⟨(c7_decode_order (.str "x") (.int 3)).1 .badCallSignature rfl,
   (c7_decode_order (.int 2) (.str "y")).2.1 2 .badCallSignature rfl rfl,
   (c7_decode_order (.int 2) (.int 3)).2.2 2 3 rfl rfl⟩

/-- C8: all binding variants implement the same bridge contract: for every
pair of integers in the common 32-bit range whose sum is also in that
range, every variant's add call returns the same value, the exact sum. -/
theorem c8_variants_agree (a b : Int)
    (h1 : int32Min ≤ a) (h2 : a ≤ int32Max) (h3 : int32Min ≤ b)
    (h4 : b ≤ int32Max) (h5 : int32Min ≤ a + b) (h6 : a + b ≤ int32Max) :
    CExt.add_module_add [.int a, .int b] = (.ok (.int (a + b)), 1) ∧
    CMin.add_module_add [.int a, .int b] = (.ok (.int (a + b)), 1) ∧
    Pybind11Proj.add_invoke [.int a, .int b] = (.ok (.int (a + b)), 1) ∧
    NanobindProj.add_invoke [.int a, .int b] = (.ok (.int (a + b)), 1) ∧
    SrcMod.add_invoke [.int a, .int b] = (.ok (.int (a + b)), 1) := by
  obtain ⟨ha1, ha2⟩ := int32_le_long a h1 h2
  obtain ⟨hb1, hb2⟩ := int32_le_long b h3 h4
  obtain ⟨hs1, hs2⟩ := int32_le_long (a + b) h5 h6
  refine ⟨?_, ?_, ?_, ?_, ?_⟩
  · exact long_add_exact CExt.add (fun x y => rfl) a b ha1 ha2 hb1 hb2 hs1 hs2
  · exact long_add_exact _ (fun x y => rfl) a b ha1 ha2 hb1 hb2 hs1 hs2
  · exact int32_add_exact Pybind11Proj.add (fun x y => rfl) a b h1 h2 h3 h4 h5 h6
  · exact int32_add_exact NanobindProj.add (fun x y => rfl) a b h1 h2 h3 h4 h5 h6
  · exact int32_add_exact SrcMod.add (fun x y => rfl) a b h1 h2 h3 h4 h5 h6

/-- C8 witness: the theorem applied at the concrete input (2, 3). -/
theorem c8_variants_agree_witness :
    CExt.add_module_add [.int 2, .int 3] = (.ok (.int (2 + 3)), 1) ∧
    CMin.add_module_add [.int 2, .int 3] = (.ok (.int (2 + 3)), 1) ∧
    Pybind11Proj.add_invoke [.int 2, .int 3] = (.ok (.int (2 + 3)), 1) ∧
    NanobindProj.add_invoke [.int 2, .int 3] = (.ok (.int (2 + 3)), 1) ∧
    SrcMod.add_invoke [.int 2, .int 3] = (.ok (.int (2 + 3)), 1) :=
  c8_variants_agree 2 3 (by decide) (by decide) (by decide) (by decide)
    (by decide) (by decide)

/-- C9: the bridge holds no mutable state between calls: running any
sequence of calls against the module yields, for every call, exactly the
result of the pure per-call function on that call's own argument list, the
module state after the sequence is the initial one, and in particular two
calls with identical argument lists anywhere in any sequences produce
identical results (the result list is the map of a fixed function over the
argument lists, so no call can contaminate another). Shown for the raw C
API variant and the pybind11 int variant cited by the claim. -/
theorem c9_stateless (m : ModuleDescriptor) (calls : List (List HostVal)) :
    runCalls CExt.add_module_call m calls =
      (calls.map CExt.add_module_add, m) ∧
    runCalls SrcMod.add_module_call m calls =
      (calls.map SrcMod.add_invoke, m) ∧
    (∀ i : Nat, (runCalls CExt.add_module_call m calls).1[i]? =
      calls[i]?.map CExt.add_module_add) := by
  have h1 : CExt.add_module_call = fun st a => (CExt.add_module_add a, st) := rfl
  have h2 : SrcMod.add_module_call = fun st a => (SrcMod.add_invoke a, st) := rfl
  refine ⟨?_, ?_, ?_⟩
  · rw [h1, runCalls_pure]
  · rw [h2, runCalls_pure]
  · intro i
    rw [h1, runCalls_pure]
    exact List.getElem?_map _ _ _

/-- C6 counterexample: the raw C API variant registers no version
attribute, so its module descriptor exposes no version string; the claim
that after registration every binding variant exposes the configured name,
documentation string and version string fails on this variant. -/
theorem c6_counterexample : CExt.add_module.version = none :=
  rfl

/-- C6 as amended: after registration each variant exposes, byte for byte,
exactly the metadata configured at build time: the pybind11, nanobind and
pybind11-int variants expose the build-time module name, the docstring
"Module for adding integers" and the build-time version string; the raw C
API variants expose the name _add_module and their fixed docstring, and
configure no version attribute, so none is exposed. -/
theorem c6_metadata (moduleName versionInfo : String) :
    Pybind11Proj.add_module moduleName versionInfo =
      ⟨moduleName, "Module for adding integers", some versionInfo,
        [⟨"add", "Adds two integers"⟩]⟩ ∧
    NanobindProj.add_module moduleName versionInfo =
      ⟨moduleName, "Module for adding integers", some versionInfo,
        [⟨"add", "Adds two integers"⟩]⟩ ∧
    SrcMod.add_module moduleName versionInfo =
      ⟨moduleName, "Module for adding integers", some versionInfo,
        [⟨"add", "Adds two integers"⟩]⟩ ∧
    CExt.add_module =
      ⟨"_add_module",
        "Simple module that adds integers. Based loosely on https://docs.python.org/3/extending/extending.html",
        none, [⟨"add", "Add two integers."⟩]⟩ ∧
    CMin.add_module =
      ⟨"_add_module",
        "Simple module that adds integers. Based loosely on https://docs.python.org/3/extending/extending.html",
        none, [⟨"add", "Add two integers."⟩]⟩ :=
  ⟨rfl, rfl, rfl, rfl, rfl⟩
